import Mathlib

/-!
Shallow embedding of the dashboard real-time event client
(`SocketService`, the WebSocket implementation in the repository), and
proofs of the specification claims about it.

Modelling notes, shared by all definitions below:

* The JS object `this` is modelled by the record `SocketState`; each
  method or event handler of `SocketService` becomes a state-transformer
  function.
* The underlying browser `WebSocket` object is modelled by its
  `readyState` (`WsReadyState`); `this.websocket = null` is `none`.
  Per the WHATWG WebSocket specification, by the time the `error` or
  `close` handler runs the socket's `readyState` is `CLOSED`, and the
  `open` handler runs with `readyState = OPEN`.
* `notifySubscribers(eventType, message)` calls are recorded in the
  `notifications` trace; the delivery of one such call to the registered
  callbacks (`Set.forEach` with a per-callback `try/catch`) is modelled
  separately by `dispatchTargets` and `invokeCallbacks`.
* Callbacks (`EventCallback` values) are identified by `Nat` ids, since
  the source removes them by identity.
* `new Date().toISOString()` is nondeterministic; every function that
  stamps a timestamp takes it as an explicit `now : String` argument.
* Untyped JS payloads are modelled by the `Payload` inductive, one
  constructor per payload shape occurring in the source.
-/

/-- `type ConnectionState = 'connected' | 'connecting' | 'disconnected'`. -/
inductive ConnState where
  | connected
  | connecting
  | disconnected
deriving DecidableEq, Repr

/-- The `readyState` of the browser `WebSocket` object owned by the service. -/
inductive WsReadyState where
  | wsConnecting
  | wsOpen
  | wsClosed
deriving DecidableEq, Repr

/-- The payload shapes occurring in the source (JS `any` values). -/
inductive Payload where
  | connectedFlag (b : Bool)
  | closeInfo (code : Nat) (reason : String)
  | errInfo
  | maxRetriesInfo
  | wire (raw : String)
deriving DecidableEq, Repr

/-- `interface SocketMessage { type: string; payload: any; timestamp: string }`. -/
structure SocketMessage where
  type : String
  payload : Payload
  timestamp : String
deriving DecidableEq, Repr

/-- The mutable fields of `class SocketService`, plus three observation
traces (`notifications`, `openAttempts`, `sentFrames`) that record the
externally visible effects: calls to `notifySubscribers`, physical
`new WebSocket(...)` constructions, and frames handed to
`websocket.send`. -/
structure SocketState where
  websocket : Option WsReadyState
  subscribers : List (String × List Nat)
  reconnectAttempts : Nat
  isManuallyDisconnected : Bool
  connectionState : ConnState
  retryTimerScheduled : Bool
  notifications : List (String × SocketMessage)
  openAttempts : Nat
  sentFrames : List SocketMessage
deriving DecidableEq, Repr

/-- `private maxReconnectAttempts = 10`. -/
def maxReconnectAttempts : Nat := 10

/-- Field values at construction time (`new SocketService(url)`). -/
def initialState : SocketState where
  websocket := none
  subscribers := []
  reconnectAttempts := 0
  isManuallyDisconnected := false
  connectionState := ConnState.disconnected
  retryTimerScheduled := false
  notifications := []
  openAttempts := 0
  sentFrames := []

/-- Record a `notifySubscribers(eventType, message)` call in the trace. -/
def notifyS (s : SocketState) (eventType : String) (message : SocketMessage) : SocketState :=
  { s with notifications := s.notifications ++ [(eventType, message)] }

/-- The fixed mapping object of `mapBackendEventType`. -/
def kindMapping : List (String × String) :=
  [("initial_state", "initial_data"),
   ("worker:registered", "worker_registered"),
   ("worker:deregistered", "worker_deregistered"),
   ("worker:disconnected", "worker_status_change"),
   ("health:update", "worker_status_update"),
   ("metrics:update", "metrics_update"),
   ("resources:update", "resources_update"),
   ("command:response", "command_response")]

/-- Key lookup in an association list, modelling JS object indexing
`mapping[backendType]` (`none` = `undefined`). -/
def lookupMapping : List (String × String) → String → Option String
  | [], _ => none
  | (k2, v) :: rest, k => if k2 = k then some v else lookupMapping rest k

/-- `mapBackendEventType(backendType) = mapping[backendType] || backendType`.
(No value in the mapping is the empty string, so JS `||` coincides with
defaulting on `undefined`.) -/
def mapBackendEventType (backendType : String) : String :=
  (lookupMapping kindMapping backendType).getD backendType

/-- `handleReconnect()`: if the attempt counter has reached the maximum,
dispatch `max_retries_reached` and stop; otherwise increment the counter
and schedule the retry timer (`setTimeout`). -/
def handleReconnect (now : String) (s : SocketState) : SocketState :=
  if s.reconnectAttempts ≥ maxReconnectAttempts then
    notifyS s "max_retries_reached"
      ⟨"max_retries_reached", Payload.maxRetriesInfo, now⟩
  else
    { s with reconnectAttempts := s.reconnectAttempts + 1, retryTimerScheduled := true }

/-- The backoff delay computed by `handleReconnect`:
`Math.min(1000 * Math.pow(2, attempts - 1), 32000)`. -/
def reconnectDelay (attempts : Nat) : Nat :=
  min (1000 * 2 ^ (attempts - 1)) 32000

/-- `connect()`: no-op when already connecting or connected; otherwise set
state to connecting, clear the manual-disconnect flag, and construct a new
`WebSocket` (one physical connection attempt). The source's `try/catch`
around the constructor only guards invalid-URL throws and is not modelled. -/
def connectFn (s : SocketState) : SocketState :=
  if s.connectionState = ConnState.connecting ∨ s.connectionState = ConnState.connected then s
  else
    { s with connectionState := ConnState.connecting,
             isManuallyDisconnected := false,
             websocket := some WsReadyState.wsConnecting,
             openAttempts := s.openAttempts + 1 }

/-- The `websocket.onopen` handler: reset the attempt counter, mark
connected, dispatch a synthetic `connection_open` envelope. -/
def onOpen (now : String) (s : SocketState) : SocketState :=
  notifyS
    { s with reconnectAttempts := 0,
             connectionState := ConnState.connected,
             websocket := some WsReadyState.wsOpen }
    "connection_open" ⟨"connection_open", Payload.connectedFlag true, now⟩

/-- The `websocket.onclose` handler: mark disconnected, dispatch a
synthetic `connection_closed` envelope, and (unless manually
disconnected) run `handleReconnect`. The browser has already moved the
socket's `readyState` to `CLOSED`; the source does not null
`this.websocket` here. -/
def onClose (now : String) (code : Nat) (reason : String) (s : SocketState) : SocketState :=
  let s1 := notifyS
    { s with connectionState := ConnState.disconnected,
             websocket := some WsReadyState.wsClosed }
    "connection_closed" ⟨"connection_closed", Payload.closeInfo code reason, now⟩
  if s1.isManuallyDisconnected then s1 else handleReconnect now s1

/-- The `websocket.onerror` handler: mark disconnected and dispatch a
synthetic `connection_error` envelope (no reconnect scheduling here). -/
def onError (now : String) (s : SocketState) : SocketState :=
  notifyS
    { s with connectionState := ConnState.disconnected,
             websocket := some WsReadyState.wsClosed }
    "connection_error" ⟨"connection_error", Payload.errInfo, now⟩

/-- `disconnect(manual)`: set the manual flag when `manual`, close and
null the websocket if present, mark disconnected. Note: the source never
calls `clearTimeout`, so a scheduled retry timer stays scheduled. -/
def disconnectFn (manual : Bool) (s : SocketState) : SocketState :=
  let s1 := if manual then { s with isManuallyDisconnected := true } else s
  let s2 := if s1.websocket.isSome then { s1 with websocket := none } else s1
  { s2 with connectionState := ConnState.disconnected }

/-- The `setTimeout` callback scheduled by `handleReconnect` firing:
`this.disconnect(false); this.connect();` — run unconditionally, with no
check of the manual-disconnect flag. -/
def timerFire (s : SocketState) : SocketState :=
  connectFn (disconnectFn false { s with retryTimerScheduled := false })

/-- The result of `JSON.parse` on a raw inbound frame, as `handleMessage`
observes it: either the parse threw (`malformed`), or it yielded a value
whose `type` field is absent (`none`) or a string. -/
inductive RawFrame where
  | malformed
  | frame (type : Option String) (payload : Payload) (timestamp : String)
deriving DecidableEq, Repr

/-- `handleMessage(rawMessage)`: a parse failure is caught and the frame
discarded; a missing `type` field (or the empty string, which is falsy
under the source's `!message.type` test) discards the frame with a
warning; otherwise the message is routed to the subscribers of the
mapped event type, the delivered message keeping its original `type`. -/
def handleMessageS (s : SocketState) (rf : RawFrame) : SocketState :=
  match rf with
  | RawFrame.malformed => s
  | RawFrame.frame none _ _ => s
  | RawFrame.frame (some ty) p ts =>
    if ty = "" then s
    else notifyS s (mapBackendEventType ty) ⟨ty, p, ts⟩

/-- `sendMessage(type, payload)`: reject with a not-connected error when
`!this.websocket || this.websocket.readyState !== WebSocket.OPEN`;
otherwise hand the stamped frame to `websocket.send` and resolve. -/
def sendMessage (now : String) (ty : String) (p : Payload) (s : SocketState) :
    SocketState × Except String Unit :=
  if s.websocket = some WsReadyState.wsOpen then
    ({ s with sentFrames := s.sentFrames ++ [⟨ty, p, now⟩] }, Except.ok ())
  else
    (s, Except.error "WebSocket not connected")

/-- `Set.add`: append the callback unless already present. -/
def addCallback (cbs : List Nat) (c : Nat) : List Nat :=
  if c ∈ cbs then cbs else cbs ++ [c]

/-- `subscribe(eventType, callback)` acting on the subscriber table (a JS
object of `Set`s, with at most one entry per key): create the entry if
missing, then `Set.add` the callback. -/
def subscribeTbl : List (String × List Nat) → String → Nat → List (String × List Nat)
  | [], k, c => [(k, [c])]
  | (k2, cbs) :: rest, k, c =>
    if k2 = k then (k2, addCallback cbs c) :: rest
    else (k2, cbs) :: subscribeTbl rest k c

/-- `unsubscribe(eventType, callback)` acting on the subscriber table:
no-op when the entry is missing, otherwise `Set.delete` the callback
(removal by identity) from that entry. -/
def unsubscribeTbl : List (String × List Nat) → String → Nat → List (String × List Nat)
  | [], _, _ => []
  | (k2, cbs) :: rest, k, c =>
    if k2 = k then (k2, cbs.filter (fun c2 => c2 ≠ c)) :: unsubscribeTbl rest k c
    else (k2, cbs) :: unsubscribeTbl rest k c

/-- Key lookup in the subscriber table (`this.subscribers[eventType]`). -/
def lookupKind : List (String × List Nat) → String → Option (List Nat)
  | [], _ => none
  | (k2, cbs) :: rest, k => if k2 = k then some cbs else lookupKind rest k

/-- The callbacks a `notifySubscribers(eventType, _)` call iterates over:
the `Set` registered for the event type, or nothing when absent. -/
def dispatchTargets (tbl : List (String × List Nat)) (k : String) : List Nat :=
  (lookupKind tbl k).getD []

/-- The body of `notifySubscribers`: invoke every callback of the set with
the message, each invocation wrapped in `try/catch` — a throwing callback
(`behavior c m = Except.error e`) is caught and logged, and iteration
continues; the loop itself always returns normally. The result records
each invocation and its outcome. -/
def invokeCallbacks (behavior : Nat → SocketMessage → Except String Unit)
    (cbs : List Nat) (m : SocketMessage) : List (Nat × Except String Unit) :=
  cbs.map (fun c => (c, behavior c m))

/-- Dispatching a sequence of notify calls against a fixed subscriber
table: the concatenated per-envelope invocation records. -/
def dispatchAll (behavior : Nat → SocketMessage → Except String Unit)
    (tbl : List (String × List Nat)) (msgs : List (String × SocketMessage)) :
    List (Nat × Except String Unit) :=
  msgs.flatMap (fun km => invokeCallbacks behavior (dispatchTargets tbl km.1) km.2)

/-- `subscribe` as a state transformer. -/
def subscribeS (k : String) (c : Nat) (s : SocketState) : SocketState :=
  { s with subscribers := subscribeTbl s.subscribers k c }

/-- `unsubscribe` as a state transformer (also the effect of invoking the
unsubscribe capability returned by `subscribe`). -/
def unsubscribeS (k : String) (c : Nat) (s : SocketState) : SocketState :=
  { s with subscribers := unsubscribeTbl s.subscribers k c }

/-- The events that can act on a `SocketService` instance: caller-invoked
methods and environment-driven handler invocations. -/
inductive Event where
  | connectEv
  | openedEv (now : String)
  | closedEv (now : String) (code : Nat) (reason : String)
  | erroredEv (now : String)
  | timerEv
  | disconnectEv (manual : Bool)
  | messageEv (rf : RawFrame)
  | sendEv (now ty : String) (p : Payload)
  | subscribeEv (k : String) (c : Nat)
  | unsubscribeEv (k : String) (c : Nat)

/-- The effect of one event on the service state. -/
def step : Event → SocketState → SocketState
  | Event.connectEv, s => connectFn s
  | Event.openedEv now, s => onOpen now s
  | Event.closedEv now code reason, s => onClose now code reason s
  | Event.erroredEv now, s => onError now s
  | Event.timerEv, s => timerFire s
  | Event.disconnectEv manual, s => disconnectFn manual s
  | Event.messageEv rf, s => handleMessageS s rf
  | Event.sendEv now ty p, s => (sendMessage now ty p s).1
  | Event.subscribeEv k c, s => subscribeS k c s
  | Event.unsubscribeEv k c, s => unsubscribeS k c s

/-- When the environment can deliver an event: handler events require a
live socket in the matching phase, the timer event requires a scheduled
timer; caller-invoked methods are always possible. -/
def enabled : Event → SocketState → Prop
  | Event.openedEv _, s => s.websocket = some WsReadyState.wsConnecting
  | Event.closedEv _ _ _, s =>
      s.websocket = some WsReadyState.wsConnecting ∨ s.websocket = some WsReadyState.wsOpen
  | Event.erroredEv _, s =>
      s.websocket = some WsReadyState.wsConnecting ∨ s.websocket = some WsReadyState.wsOpen
  | Event.timerEv, s => s.retryTimerScheduled = true
  | _, _ => True

/-- The service states reachable from construction by enabled events. -/
inductive Reachable : SocketState → Prop where
  | init : Reachable initialState
  | step (e : Event) (s : SocketState) : Reachable s → enabled e s → Reachable (step e s)

/-- One failed open attempt as the event loop executes it: the in-flight
open fails (its `close` event fires, running `onclose` and possibly
scheduling a retry), then, if a retry timer was scheduled, the timer
fires (`disconnect(false); connect();`), starting the next attempt. -/
def failStep (n : Nat) (s : SocketState) : SocketState :=
  let s1 := step (Event.closedEv (toString n) 1006 "failure") s
  if s1.retryTimerScheduled then step Event.timerEv s1 else s1

/-- The run in which `connect()` is called on a fresh instance and every
open attempt fails: `failedRun n` is the state after the n-th consecutive
failure (and the firing of any retry timer it scheduled). -/
def failedRun : Nat → SocketState
  | 0 => step Event.connectEv initialState
  | n + 1 => failStep (n + 1) (failedRun n)

/-- How many notify calls in the trace used the given event type. -/
def dispatchCount (s : SocketState) (k : String) : Nat :=
  (s.notifications.filter (fun pr => pr.1 = k)).length

/-- The synthetic local-only kinds of the connection lifecycle. -/
def syntheticKinds : List String :=
  ["connection_open", "connection_closed", "connection_error", "max_retries_reached"]

/-- A frame `handleMessage` discards: parse failure or falsy `type`. -/
def isBadFrame : RawFrame → Bool
  | RawFrame.malformed => true
  | RawFrame.frame none _ _ => true
  | RawFrame.frame (some ty) _ _ => ty = ""

/-- Processing a sequence of inbound frames in receipt order. -/
def processFrames (s : SocketState) (frames : List RawFrame) : SocketState :=
  frames.foldl handleMessageS s

/-- Whether an event is the `onopen` handler firing. -/
def isOpenEv : Event → Bool
  | Event.openedEv _ => true
  | _ => false

/-! ## Helper lemmas -/

theorem lookupMapping_not_mem {tbl : List (String × String)} {k : String}
    (h : k ∉ tbl.map Prod.fst) : lookupMapping tbl k = none := by
  induction tbl with
  | nil => rfl
  | cons p rest ih =>
    obtain ⟨k2, v⟩ := p
    simp only [List.map_cons, List.mem_cons] at h
    push_neg at h
    simp only [lookupMapping]
    rw [if_neg fun hk => h.1 hk.symm]
    exact ih h.2

theorem lookupMapping_mem {tbl : List (String × String)} {k v : String}
    (h : lookupMapping tbl k = some v) : (k, v) ∈ tbl := by
  induction tbl with
  | nil => simp [lookupMapping] at h
  | cons p rest ih =>
    obtain ⟨k2, v2⟩ := p
    simp only [lookupMapping] at h
    by_cases hk : k2 = k
    · rw [if_pos hk] at h
      obtain rfl := Option.some.inj h
      subst hk
      exact List.mem_cons_self _ _
    · rw [if_neg hk] at h
      exact List.mem_cons_of_mem _ (ih h)

theorem kindMapping_values_not_synthetic :
    ∀ p ∈ kindMapping, p.2 ∉ syntheticKinds := by decide

theorem mapBackendEventType_not_synthetic {ty : String} (h : ty ∉ syntheticKinds) :
    mapBackendEventType ty ∉ syntheticKinds := by
  unfold mapBackendEventType
  cases hl : lookupMapping kindMapping ty with
  | none => simpa using h
  | some v =>
    have hv : (ty, v) ∈ kindMapping := lookupMapping_mem hl
    simpa using kindMapping_values_not_synthetic (ty, v) hv

theorem handleMessageS_preserves (s : SocketState) (rf : RawFrame) :
    (handleMessageS s rf).websocket = s.websocket ∧
    (handleMessageS s rf).connectionState = s.connectionState ∧
    (handleMessageS s rf).reconnectAttempts = s.reconnectAttempts := by
  cases rf with
  | malformed => exact ⟨rfl, rfl, rfl⟩
  | frame ty p ts =>
    cases ty with
    | none => exact ⟨rfl, rfl, rfl⟩
    | some t =>
      by_cases ht : t = "" <;> simp [handleMessageS, ht, notifyS]

/-! ## Claim theorems -/

/-- C5: for every inbound frame whose kind is present in `KindMapping`,
dispatch delivers the envelope under the mapped public kind; for every
kind absent from the mapping, the original kind string is preserved
exactly and the dispatch uses it verbatim. -/
theorem kind_mapping_dispatch
    (k v k2 : String) (p : Payload) (ts : String) (s : SocketState)
    (hmem : (k, v) ∈ kindMapping)
    (habs : k2 ∉ kindMapping.map Prod.fst) (hk2 : k2 ≠ "") :
    mapBackendEventType k = v ∧
    mapBackendEventType k2 = k2 ∧
    (handleMessageS s (RawFrame.frame (some k) p ts)).notifications
      = s.notifications ++ [(v, ⟨k, p, ts⟩)] ∧
    (handleMessageS s (RawFrame.frame (some k2) p ts)).notifications
      = s.notifications ++ [(k2, ⟨k2, p, ts⟩)] := by
  have hmap2 : mapBackendEventType k2 = k2 := by
    unfold mapBackendEventType
    rw [lookupMapping_not_mem habs]
    rfl
  have hall : ∀ p ∈ kindMapping, mapBackendEventType p.1 = p.2 ∧ p.1 ≠ "" := by decide
  have hmap : mapBackendEventType k = v ∧ k ≠ "" := hall (k, v) hmem
  refine ⟨hmap.1, hmap2, ?_, ?_⟩
  · simp [handleMessageS, hmap.2, notifyS, hmap.1]
  · simp [handleMessageS, hk2, notifyS, hmap2]

/-- C5 witness: the mapped kind `worker:registered` dispatches as
`worker_registered`; the unmapped kind `dlq:update` passes through. -/
theorem kind_mapping_dispatch_witness :
    mapBackendEventType "worker:registered" = "worker_registered" ∧
    mapBackendEventType "dlq:update" = "dlq:update" ∧
    (handleMessageS initialState
      (RawFrame.frame (some "worker:registered") (Payload.wire "w1") "ts")).notifications
      = initialState.notifications
        ++ [("worker_registered", ⟨"worker:registered", Payload.wire "w1", "ts"⟩)] ∧
    (handleMessageS initialState
      (RawFrame.frame (some "dlq:update") (Payload.wire "w1") "ts")).notifications
      = initialState.notifications
        ++ [("dlq:update", ⟨"dlq:update", Payload.wire "w1", "ts"⟩)] :=
  kind_mapping_dispatch "worker:registered" "worker_registered" "dlq:update"
    (Payload.wire "w1") "ts" initialState (by decide) (by decide) (by decide)

theorem filter_ne_idem (l : List Nat) (c : Nat) :
    (l.filter (fun c2 => c2 ≠ c)).filter (fun c2 => c2 ≠ c)
      = l.filter (fun c2 => c2 ≠ c) := by
  induction l with
  | nil => rfl
  | cons a rest ih =>
    by_cases h : a = c <;> simp [List.filter_cons, h, ih]

theorem unsubscribeTbl_idem (tbl : List (String × List Nat)) (k : String) (c : Nat) :
    unsubscribeTbl (unsubscribeTbl tbl k c) k c = unsubscribeTbl tbl k c := by
  induction tbl with
  | nil => rfl
  | cons p rest ih =>
    obtain ⟨k2, cbs⟩ := p
    by_cases h : k2 = k <;> simp [unsubscribeTbl, h, ih, filter_ne_idem]

theorem not_mem_dispatchTargets_unsub (tbl : List (String × List Nat)) (k : String) (c : Nat) :
    c ∉ dispatchTargets (unsubscribeTbl tbl k c) k := by
  induction tbl with
  | nil => simp [unsubscribeTbl, dispatchTargets, lookupKind]
  | cons p rest ih =>
    obtain ⟨k2, cbs⟩ := p
    by_cases h : k2 = k
    · subst h
      simp [unsubscribeTbl, dispatchTargets, lookupKind, List.mem_filter]
    · simpa [unsubscribeTbl, h, dispatchTargets, lookupKind] using ih

/-- C7: `unsubscribe` is idempotent — invoking the capability twice
leaves the subscription table (and the whole service state) exactly as
one invocation does — and after it is invoked, dispatches for that kind
never target the removed listener again. -/
theorem unsubscribe_idempotent (s : SocketState) (k : String) (c : Nat) :
    unsubscribeS k c (unsubscribeS k c s) = unsubscribeS k c s ∧
    c ∉ dispatchTargets (unsubscribeS k c s).subscribers k := by
  constructor
  · simp [unsubscribeS, unsubscribeTbl_idem]
  · exact not_mem_dispatchTargets_unsub s.subscribers k c

/-- C8: dispatch isolates listener failures — every registered listener
is invoked exactly once with the envelope no matter which listeners
throw, the dispatch loop always returns normally, and the set of
invocations over any sequence of envelopes is independent of which
listeners throw (so a throw never affects the current or future
envelopes, the transport, or the controller). -/
theorem listener_failure_isolated
    (behavior behavior2 : Nat → SocketMessage → Except String Unit)
    (cbs : List Nat) (m : SocketMessage)
    (tbl : List (String × List Nat)) (msgs : List (String × SocketMessage)) :
    (invokeCallbacks behavior cbs m).map Prod.fst = cbs ∧
    (dispatchAll behavior tbl msgs).map Prod.fst
      = (dispatchAll behavior2 tbl msgs).map Prod.fst := by
  constructor
  · simp [invokeCallbacks, List.map_map, Function.comp_def]
  · simp [dispatchAll, invokeCallbacks, List.map_flatMap, List.map_map, Function.comp_def]

theorem handleMessageS_bad (s : SocketState) (bad : RawFrame)
    (h : isBadFrame bad = true) : handleMessageS s bad = s := by
  cases bad with
  | malformed => rfl
  | frame ty p ts =>
    cases ty with
    | none => rfl
    | some t =>
      simp only [isBadFrame, decide_eq_true_eq] at h
      simp [handleMessageS, h]

/-- C6: a frame that fails to parse, or lacks the required `type` field,
is discarded without being dispatched (the whole service state, including
the dispatch trace and the connection fields, is untouched), and its
presence in a sequence of inbound frames never changes the processing of
the well-formed frames around it. -/
theorem bad_frame_never_fatal (s : SocketState) (l1 l2 : List RawFrame) (bad : RawFrame)
    (h : isBadFrame bad = true) :
    processFrames s (l1 ++ bad :: l2) = processFrames s (l1 ++ l2) ∧
    handleMessageS s bad = s := by
  refine ⟨?_, handleMessageS_bad s bad h⟩
  simp only [processFrames, List.foldl_append, List.foldl_cons]
  rw [handleMessageS_bad _ bad h]

/-- C6 witness: a malformed frame between two well-formed frames changes
nothing, and is itself a no-op on the fresh service state. -/
theorem bad_frame_never_fatal_witness :
    processFrames initialState
      [RawFrame.frame (some "metrics:update") (Payload.wire "m") "t1",
       RawFrame.malformed,
       RawFrame.frame (some "worker:registered") (Payload.wire "w") "t2"]
      = processFrames initialState
        [RawFrame.frame (some "metrics:update") (Payload.wire "m") "t1",
         RawFrame.frame (some "worker:registered") (Payload.wire "w") "t2"] ∧
    handleMessageS initialState RawFrame.malformed = initialState :=
  bad_frame_never_fatal initialState
    [RawFrame.frame (some "metrics:update") (Payload.wire "m") "t1"]
    [RawFrame.frame (some "worker:registered") (Payload.wire "w") "t2"]
    RawFrame.malformed rfl

/-- C9: the reconnect counter is zero immediately after every successful
open, no matter the state before; a mere `connect()` call never changes
the counter; and no event other than a successful open ever resets a
nonzero counter to zero. -/
theorem counter_reset_only_by_open (now : String) (e : Event) (s s2 : SocketState)
    (he : isOpenEv e = false) (hs : s2.reconnectAttempts ≠ 0) :
    (step (Event.openedEv now) s).reconnectAttempts = 0 ∧
    (step Event.connectEv s).reconnectAttempts = s.reconnectAttempts ∧
    (step e s2).reconnectAttempts ≠ 0 := by
  refine ⟨rfl, ?_, ?_⟩
  · simp only [step, connectFn]
    split <;> rfl
  · cases e with
    | connectEv =>
      simp only [step, connectFn]
      split <;> exact hs
    | openedEv now2 => simp [isOpenEv] at he
    | closedEv now2 code reason =>
      simp only [step, onClose, notifyS, handleReconnect]
      split
      · exact hs
      · split
        · exact hs
        · simp
    | erroredEv now2 => exact hs
    | timerEv =>
      simp only [step, timerFire, connectFn, disconnectFn]
      split <;> split <;> split <;> exact hs
    | disconnectEv manual =>
      simp only [step, disconnectFn]
      split <;> split <;> exact hs
    | messageEv rf =>
      have := (handleMessageS_preserves s2 rf).2.2
      simpa [step, this] using hs
    | sendEv now2 ty p =>
      simp only [step, sendMessage]
      split <;> exact hs
    | subscribeEv k c => exact hs
    | unsubscribeEv k c => exact hs

/-- C9 witness, at a state with five prior failed attempts: a successful
open zeroes the counter; `connect()` leaves it at five; the timer firing
leaves it nonzero. -/
theorem counter_reset_only_by_open_witness :
    (step (Event.openedEv "t") { initialState with reconnectAttempts := 5 }).reconnectAttempts
        = 0 ∧
    (step Event.connectEv { initialState with reconnectAttempts := 5 }).reconnectAttempts
        = { initialState with reconnectAttempts := 5 : SocketState }.reconnectAttempts ∧
    (step Event.timerEv { initialState with reconnectAttempts := 5 }).reconnectAttempts ≠ 0 :=
  counter_reset_only_by_open "t" Event.timerEv
    { initialState with reconnectAttempts := 5 }
    { initialState with reconnectAttempts := 5 } rfl (by decide)

theorem reachable_open_imp_connected {s : SocketState} (h : Reachable s) :
    s.websocket = some WsReadyState.wsOpen → s.connectionState = ConnState.connected := by
  induction h with
  | init => intro hw; simp [initialState] at hw
  | step e s hr hen ih =>
    cases e with
    | connectEv =>
      intro hw
      by_cases hc : s.connectionState = ConnState.connecting ∨
          s.connectionState = ConnState.connected
      · simp only [step, connectFn, if_pos hc] at hw ⊢
        exact ih hw
      · simp only [step, connectFn, if_neg hc] at hw
        simp at hw
    | openedEv now =>
      intro hw
      simp [step, onOpen, notifyS]
    | closedEv now code reason =>
      intro hw
      simp only [step, onClose, notifyS, handleReconnect] at hw
      split at hw
      · simp at hw
      · split at hw <;> simp at hw
    | erroredEv now =>
      intro hw
      simp only [step, onError, notifyS] at hw
      simp at hw
    | timerEv =>
      intro hw
      simp only [step, timerFire, disconnectFn, connectFn] at hw
      split at hw <;> split at hw <;> simp_all
    | disconnectEv manual =>
      intro hw
      simp only [step, disconnectFn] at hw
      split at hw <;> split at hw <;> simp_all [Option.isSome_iff_exists]
    | messageEv rf =>
      intro hw
      obtain ⟨hws, hcs, _⟩ := handleMessageS_preserves s rf
      simp only [step] at hw ⊢
      rw [hws] at hw
      rw [hcs]
      exact ih hw
    | sendEv now ty p =>
      have hpres : ((sendMessage now ty p s).1).connectionState = s.connectionState := by
        simp only [sendMessage]
        split <;> rfl
      have hws : ((sendMessage now ty p s).1).websocket = s.websocket := by
        simp only [sendMessage]
        split <;> rfl
      intro hw
      simp only [step] at hw ⊢
      rw [hws] at hw
      rw [hpres]
      exact ih hw
    | subscribeEv k c =>
      intro hw
      simp only [step, subscribeS] at hw ⊢
      exact ih hw
    | unsubscribeEv k c =>
      intro hw
      simp only [step, unsubscribeS] at hw ⊢
      exact ih hw

/-- C4: in every reachable state whose connection state is not
`connected`, `sendMessage` fails immediately with the not-connected
error, and the transport's send primitive is never invoked — the state,
including the `sentFrames` trace, is unchanged. -/
theorem send_fails_when_not_connected (now ty : String) (p : Payload) (s : SocketState)
    (hr : Reachable s) (hc : s.connectionState ≠ ConnState.connected) :
    (sendMessage now ty p s).2 = Except.error "WebSocket not connected" ∧
    (sendMessage now ty p s).1 = s := by
  have hw : ¬ s.websocket = some WsReadyState.wsOpen :=
    fun h => hc (reachable_open_imp_connected hr h)
  simp [sendMessage, hw]

/-- C4 witness: sending `dlq:clear` on the freshly constructed,
disconnected service rejects and transmits nothing. -/
theorem send_fails_when_not_connected_witness :
    (sendMessage "t0" "dlq:clear" (Payload.wire "queue_name is dlq.email") initialState).2
        = Except.error "WebSocket not connected" ∧
    (sendMessage "t0" "dlq:clear" (Payload.wire "queue_name is dlq.email") initialState).1
        = initialState :=
  send_fails_when_not_connected "t0" "dlq:clear" (Payload.wire "queue_name is dlq.email")
    initialState Reachable.init (by decide)

/-- C1 counterexample: after exactly ten consecutive failed opens (the
initial `connect()` and nine retries failing, plus the retry each
failure schedules), `max_retries_reached` has not been dispatched at
all — not once — and an eleventh automatic open attempt has already
fired (eleven physical connection attempts). -/
theorem tenth_failure_counterexample :
    dispatchCount (failedRun 10) "max_retries_reached" = 0 ∧
    ¬ dispatchCount (failedRun 10) "max_retries_reached" = 1 ∧
    (failedRun 10).openAttempts = 11 := by decide

/-- C1 amended: in the run of consecutive failed opens, the client gives
up on the eleventh failure (the initial attempt plus ten automatic
retries): `max_retries_reached` is dispatched exactly once, on the
eleventh failure and not before; after it, no retry timer is scheduled
and no open is in flight, and only a caller-issued `connect()` starts a
further (twelfth) open attempt. -/
theorem max_retries_on_eleventh_failure :
    dispatchCount (failedRun 10) "max_retries_reached" = 0 ∧
    dispatchCount (failedRun 11) "max_retries_reached" = 1 ∧
    (failedRun 11).openAttempts = 11 ∧
    (failedRun 11).retryTimerScheduled = false ∧
    (failedRun 11).websocket = some WsReadyState.wsClosed ∧
    (failedRun 11).connectionState = ConnState.disconnected ∧
    (step Event.connectEv (failedRun 11)).openAttempts = 12 := by decide

/-- The state of the C2 scenario: a fresh instance connects, the open
fails (the close handler schedules a retry timer), and the caller then
invokes `disconnect(true)` while the timer is still in flight. -/
def afterManualDisconnect : SocketState :=
  step (Event.disconnectEv true)
    (step (Event.closedEv "t1" 1006 "failure") (step Event.connectEv initialState))

/-- C2: the code violates the claim. After a manual `disconnect()` with a
retry timer in flight, the manual flag is set and the timer is still
scheduled (the source never calls `clearTimeout`); when the timer fires,
its callback `disconnect(false); connect()` runs unconditionally —
`connect()` proceeds because the state is `disconnected` — so a new
physical connection is opened and the manual-disconnect flag is cleared,
instead of the firing being a no-op. -/
theorem manual_disconnect_timer_still_reconnects :
    afterManualDisconnect.isManuallyDisconnected = true ∧
    afterManualDisconnect.retryTimerScheduled = true ∧
    afterManualDisconnect.connectionState = ConnState.disconnected ∧
    (step Event.timerEv afterManualDisconnect).openAttempts
      = afterManualDisconnect.openAttempts + 1 ∧
    (step Event.timerEv afterManualDisconnect).connectionState = ConnState.connecting ∧
    (step Event.timerEv afterManualDisconnect).isManuallyDisconnected = false := by decide

/-- C3 counterexample: in the state where retries are exhausted (counter
at the maximum, `max_retries_reached` already dispatched), calling
`connect()` does not reset the reconnect counter to zero — it stays at
the maximum. -/
theorem connect_leaves_counter_counterexample :
    (failedRun 11).reconnectAttempts = maxReconnectAttempts ∧
    (step Event.connectEv (failedRun 11)).reconnectAttempts = maxReconnectAttempts ∧
    ¬ (step Event.connectEv (failedRun 11)).reconnectAttempts = 0 := by decide

/-- C3 amended: calling `connect()` from a disconnected state resets the
manual-disconnect flag and starts a new connecting session, but leaves
the reconnect counter unchanged; the counter is reset to zero only by a
subsequent successful open. -/
theorem connect_resets_flag_not_counter (s : SocketState)
    (h : s.connectionState = ConnState.disconnected) :
    (step Event.connectEv s).isManuallyDisconnected = false ∧
    (step Event.connectEv s).reconnectAttempts = s.reconnectAttempts ∧
    (step Event.connectEv s).connectionState = ConnState.connecting := by
  simp [step, connectFn, h]

/-- The state a C3 caller resumes from: counter exhausted and the
manual-disconnect flag set. -/
def exhaustedManualState : SocketState :=
  { initialState with reconnectAttempts := 10, isManuallyDisconnected := true }

/-- C3 witness: from the exhausted, manually-disconnected state,
`connect()` clears the flag and keeps the counter at ten. -/
theorem connect_resets_flag_not_counter_witness :
    (step Event.connectEv exhaustedManualState).isManuallyDisconnected = false ∧
    (step Event.connectEv exhaustedManualState).reconnectAttempts
      = exhaustedManualState.reconnectAttempts ∧
    (step Event.connectEv exhaustedManualState).connectionState = ConnState.connecting :=
  connect_resets_flag_not_counter exhaustedManualState rfl

/-- C10 counterexample: an inbound wire frame whose own `type` is the
synthetic name `connection_open` is not filtered — `handleMessage` maps
it to itself (it is absent from the mapping) and dispatches it to the
`connection_open` listeners, so a synthetic-kind envelope can arise from
a wire frame. -/
theorem synthetic_kind_from_wire_counterexample :
    (handleMessageS initialState
      (RawFrame.frame (some "connection_open") (Payload.wire "x") "t")).notifications
      = [("connection_open", ⟨"connection_open", Payload.wire "x", "t"⟩)] := by decide

/-- C10 amended: every dispatch produced from an inbound frame uses the
frame's mapped kind, and no entry of the kind mapping targets one of the
four synthetic lifecycle kinds — so a synthetic-kind dispatch can arise
from a wire frame only when the frame itself already carries the
synthetic name verbatim; for every frame whose kind is not one of the
four synthetic names, the dispatched kind is not synthetic either. -/
theorem wire_dispatch_not_synthetic (ty : String) (p : Payload) (ts : String)
    (s : SocketState) (h1 : ty ≠ "") (h2 : ty ∉ syntheticKinds) :
    (handleMessageS s (RawFrame.frame (some ty) p ts)).notifications
      = s.notifications ++ [(mapBackendEventType ty, ⟨ty, p, ts⟩)] ∧
    mapBackendEventType ty ∉ syntheticKinds := by
  refine ⟨?_, mapBackendEventType_not_synthetic h2⟩
  simp [handleMessageS, h1, notifyS]

/-- C10 witness: a `worker:registered` wire frame dispatches under
`worker_registered`, which is not a synthetic kind. -/
theorem wire_dispatch_not_synthetic_witness :
    (handleMessageS initialState
      (RawFrame.frame (some "worker:registered") (Payload.wire "w1") "t")).notifications
      = initialState.notifications
        ++ [(mapBackendEventType "worker:registered",
             ⟨"worker:registered", Payload.wire "w1", "t"⟩)] ∧
    mapBackendEventType "worker:registered" ∉ syntheticKinds :=
  wire_dispatch_not_synthetic "worker:registered" (Payload.wire "w1") "t" initialState
    (by decide) (by decide)
